import Mathlib

/-!
Shallow embedding of src/ble_communication.py.

Bytes are modelled as natural numbers, inbound frames as lists of bytes, and
wall-clock time as integers (the Python code uses time.time(); every claim
speaks of whole seconds, and exact integer arithmetic models the comparisons
and subtractions the code performs). A Python function that can raise an
uncaught exception (IndexError on short frames) is modelled as returning
Option, with none standing for the raised exception.

The module-level mutable globals (HEARTBEAT_ID, LAST_HEARTBEAT_SENT_TIME,
HEARTBEAT_EVENT, STOP_EVENT, RECORDING_EVENT, RECORDING_START, the CSV file
contents, and the mismatch error log) are gathered into an explicit
SessionState record that every stateful operation transforms.
-/

namespace BleCommunication

/-- Source line 107: HEARTBEAT_INTERVAL = 2. -/
def HEARTBEAT_INTERVAL : Int := 2

/-- Source line 108: HEARTBEAT_TIMEOUT = 2 (the soft timeout). -/
def HEARTBEAT_TIMEOUT : Int := 2

/-- Source line 109: HARD_TIMEOUT = 5. -/
def HARD_TIMEOUT : Int := 5

/-- Source line 25: EMG_RECORDING_INTERVAL = 10 (default recording duration). -/
def EMG_RECORDING_INTERVAL : Int := 10

/-- The module-level mutable state of ble_communication.py, gathered into one
record: HEARTBEAT_ID (line 105), LAST_HEARTBEAT_SENT_TIME (line 106),
HEARTBEAT_EVENT (line 110), STOP_EVENT (line 22), RECORDING_EVENT (line 23),
RECORDING_START (line 26).  emgRows models the data rows appended to the CSV
file (line 99), each as (elapsed time, channel values); idMismatchCount models
the number of heartbeat-ID-mismatch error logs printed (line 160). -/
structure SessionState where
  HEARTBEAT_ID : Nat
  LAST_HEARTBEAT_SENT_TIME : Int
  HEARTBEAT_EVENT : Bool
  STOP_EVENT : Bool
  RECORDING_EVENT : Bool
  RECORDING_START : Option Int
  emgRows : List (Int × List Nat)
  idMismatchCount : Nat
  deriving Repr, DecidableEq

/-- The initial values of the globals at module load (lines 22, 23, 26, 105,
106): HEARTBEAT_ID = 0, LAST_HEARTBEAT_SENT_TIME = 0, both events clear,
recording off, RECORDING_START = None, no rows written, no mismatches. -/
def initState : SessionState :=
  { HEARTBEAT_ID := 0
    LAST_HEARTBEAT_SENT_TIME := 0
    HEARTBEAT_EVENT := false
    STOP_EVENT := false
    RECORDING_EVENT := false
    RECORDING_START := none
    emgRows := []
    idMismatchCount := 0 }

/-- Source lines 141-148, construct_heartbeat_packet: type byte 0x01, the id
byte, three 0xFF marker bytes, terminator 0x0A.  Python's bytearray.append
requires the id to be a byte (0 <= id < 256); the supervisor maintains
HEARTBEAT_ID < 256 (initialised to 0, only ever assigned modulo 256), and the
codec claims hypothesise id < 256 accordingly. -/
def construct_heartbeat_packet (heartbeat_id : Nat) : List Nat :=
  [0x01, heartbeat_id, 0xFF, 0xFF, 0xFF, 0x0A]

/-- The loop body of process_emg_signal (source lines 166-168): for each index
i it reads data[i] and data[i+1] and appends (data[i] << 8) | data[i+1].  A
read past the end of the frame is Python's IndexError, modelled as none. -/
def emgLoop (data : List Nat) : List Nat → Option (List Nat)
  | [] => some []
  | i :: rest =>
    match data.get? i, data.get? (i + 1) with
    | some hi, some lo => (emgLoop data rest).map (fun vs => ((hi <<< 8) ||| lo) :: vs)
    | _, _ => none

/-- Source lines 164-171, process_emg_signal: iterates i over range(1, 16, 2),
i.e. i = 1, 3, 5, 7, 9, 11, 13, 15, reading data[i] and data[i+1] (so indices
1 through 16), and returns the list of the eight combined values.  Raises
IndexError (none) when the frame is shorter than 17 bytes. -/
def process_emg_signal (data : List Nat) : Option (List Nat) :=
  emgLoop data [1, 3, 5, 7, 9, 11, 13, 15]

/-- Source lines 150-162, process_heartbeat_packet: reads received_id =
data[1] (IndexError, i.e. none, if absent), computes expected_id =
(HEARTBEAT_ID - 1) % 256 (written (HEARTBEAT_ID + 255) % 256, which agrees
with Python's nonnegative remainder), and in BOTH branches sets
HEARTBEAT_EVENT; the mismatch branch additionally prints an error, counted in
idMismatchCount. -/
def process_heartbeat_packet (data : List Nat) (s : SessionState) : Option SessionState :=
  match data.get? 1 with
  | none => none
  | some received_id =>
    let expected_id := (s.HEARTBEAT_ID + 255) % 256
    if received_id = expected_id then
      some { s with HEARTBEAT_EVENT := true }
    else
      some { s with HEARTBEAT_EVENT := true, idMismatchCount := s.idMismatchCount + 1 }

/-- Source lines 82-103, parse_received_data, the decoder/dispatcher invoked
once per inbound frame: reads data[0] (IndexError, i.e. none, on an empty
frame); tag 0x01 goes to process_heartbeat_packet; tag 0x04 goes to
process_emg_signal and, when RECORDING_EVENT is set, lazily initialises
RECORDING_START to the current time if it is still None and appends the row
(now - RECORDING_START, features) to the CSV file; any other tag falls
through with no effect. -/
def parse_received_data (now : Int) (data : List Nat) (s : SessionState) :
    Option SessionState :=
  match data.get? 0 with
  | none => none
  | some message_type =>
    if message_type = 0x01 then
      process_heartbeat_packet data s
    else if message_type = 0x04 then
      match process_emg_signal data with
      | none => none
      | some signal_features =>
        if s.RECORDING_EVENT then
          let recording_start := s.RECORDING_START.getD now
          some { s with
                   RECORDING_START := some recording_start
                   emgRows := s.emgRows ++ [(now - recording_start, signal_features)] }
        else some s
    else some s

/-- The read side of the codec, assembled from the dispatch structure of
parse_received_data (lines 85-93): byte 0 selects the packet kind, a 0x01
frame carries its id at byte 1 (line 153), a 0x04 frame carries eight channel
values decoded by process_emg_signal, and any other first byte is an unknown
packet that the dispatcher ignores.  none models the IndexError the source
raises on a frame too short for its tag. -/
inductive Packet where
  | heartbeat (id : Nat)
  | samples (channels : List Nat)
  | unknown
  deriving Repr, DecidableEq

/-- Decoding a raw frame into a Packet, following parse_received_data's
branching exactly; see the comment on Packet. -/
def decode (data : List Nat) : Option Packet :=
  match data.get? 0 with
  | none => none
  | some message_type =>
    if message_type = 0x01 then
      (data.get? 1).map Packet.heartbeat
    else if message_type = 0x04 then
      (process_emg_signal data).map Packet.samples
    else some Packet.unknown

/-- One iteration of the send_heartbeat loop (source lines 117-138), driven by
two environment parameters: writeOk tells whether the transport write at line
121 succeeds (a bleak.exc.BleakError is caught at line 126, so a failed write
only skips the two updates at lines 124-125), and responseDelay tells whether
and after how long HEARTBEAT_EVENT is set during the wait at line 130 (none
means the soft timeout expires).  The iteration starts at time t; the returned
time is when the next iteration would begin.  The while guard at line 118 is
the initial test: on a state with STOP_EVENT set the loop body does not run. -/
def send_heartbeat_step (writeOk : Bool) (responseDelay : Option Int) (t : Int)
    (s : SessionState) : Int × SessionState :=
  if s.STOP_EVENT then (t, s)
  else
    let s1 := if writeOk then
        { s with LAST_HEARTBEAT_SENT_TIME := t, HEARTBEAT_ID := (s.HEARTBEAT_ID + 1) % 256 }
      else s
    match responseDelay with
    | some d =>
      (t + d + HEARTBEAT_INTERVAL, { s1 with HEARTBEAT_EVENT := false })
    | none =>
      if HARD_TIMEOUT ≤ (t + HEARTBEAT_TIMEOUT) - s1.LAST_HEARTBEAT_SENT_TIME then
        (t + HEARTBEAT_TIMEOUT, { s1 with STOP_EVENT := true })
      else
        (t + HEARTBEAT_TIMEOUT, s1)

/-- The run of the heartbeat loop from module start (state initState, time 0)
in which every transport write succeeds and no response ever arrives: n
iterations of send_heartbeat_step with writeOk = true and responseDelay =
none. -/
def noResponseRun : Nat → Int × SessionState
  | 0 => (0, initState)
  | n + 1 =>
    let p := noResponseRun n
    send_heartbeat_step true none p.1 p.2

/-- The run of the heartbeat loop from module start in which every transport
write succeeds, with an arbitrary pattern resp of response arrivals. -/
def successRun (resp : Nat → Option Int) : Nat → Int × SessionState
  | 0 => (0, initState)
  | n + 1 =>
    let p := successRun resp n
    send_heartbeat_step true (resp n) p.1 p.2

/-- The arming step of the recording branch of main (source lines 195-204):
the destination file is truncated and given its header row, and
RECORDING_EVENT is set.  RECORDING_START is not touched here. -/
def arm_recording (s : SessionState) : SessionState :=
  { s with RECORDING_EVENT := true }

/-- The expiry step of the recording branch of main (source lines 205-208),
reached when asyncio.sleep(interval) returns: RECORDING_EVENT is cleared and
STOP_EVENT is set. -/
def expire_recording (s : SessionState) : SessionState :=
  { s with RECORDING_EVENT := false, STOP_EVENT := true }

/-- Folding the dispatcher over a list of timestamped inbound frames, in
arrival order; none if any frame makes the dispatcher raise. -/
def processInbound (frames : List (Int × List Nat)) (s : SessionState) :
    Option SessionState :=
  match frames with
  | [] => some s
  | (t, d) :: rest =>
    match parse_received_data t d s with
    | none => none
    | some s2 => processInbound rest s2

/-- The recording branch of main as a timed phase (source lines 195-208): arm
at time t0, process whatever inbound frames arrive during the window, and at
time t0 + duration (when asyncio.sleep(duration) returns) clear
RECORDING_EVENT and set STOP_EVENT.  The returned time is the time of the
expiry step. -/
def main_record_phase (t0 duration : Int) (inbound : List (Int × List Nat))
    (s : SessionState) : Option (Int × SessionState) :=
  (processInbound inbound (arm_recording s)).map
    (fun s1 => (t0 + duration, expire_recording s1))

/-- Every state-mutating operation of the program, as one step type: inbound
frame dispatch (the notification callback, lines 78-103), one heartbeat loop
iteration (lines 117-138), arming the recording window (lines 195-204), and
recording window expiry (lines 205-208). -/
inductive SessionOp where
  | inbound (now : Int) (data : List Nat)
  | beat (writeOk : Bool) (responseDelay : Option Int) (t : Int)
  | armRecord
  | expireRecord
  deriving Repr

/-- The transition function of one SessionOp; none models an operation that
raises (only inbound dispatch can). -/
def session_step (op : SessionOp) (s : SessionState) : Option SessionState :=
  match op with
  | .inbound now data => parse_received_data now data s
  | .beat ok d t => some (send_heartbeat_step ok d t s).2
  | .armRecord => some (arm_recording s)
  | .expireRecord => some (expire_recording s)

/-- The 17-byte sample frame of claim C6 (tag 0x04 followed by the eight
big-endian pairs 1..8), also used for the recording scenario of claim C7. -/
def sampleFrame : List Nat :=
  [0x04, 0x00, 0x01, 0x00, 0x02, 0x00, 0x03, 0x00,
   0x04, 0x00, 0x05, 0x00, 0x06, 0x00, 0x07, 0x00, 0x08]

end BleCommunication

namespace BleCommunication

theorem get?_eq_some_getD (l : List Nat) (i : Nat) (h : i < l.length) :
    l.get? i = some (l.getD i 0) := by
  rw [List.getD_eq_getElem?_getD]
  cases hq : l.get? i with
  | none => rw [List.get?_eq_none] at hq; omega
  | some a => simp [List.get?_eq_getElem?] at hq ⊢; simp [hq]

theorem be16_or (hi lo : Nat) (h : lo < 256) : (hi <<< 8) ||| lo = 256 * hi + lo := by
  have h8 : lo < 2 ^ 8 := by omega
  have hmul := Nat.mul_add_lt_is_or h8 hi
  rw [Nat.shiftLeft_eq, Nat.mul_comm hi (2 ^ 8), ← hmul]

theorem getD_mem (l : List Nat) (i : Nat) (h : i < l.length) : l.getD i 0 ∈ l := by
  rw [List.getD_eq_getElem l 0 h]
  exact List.getElem_mem h

theorem emgLoop_eq_of_lt (data : List Nat) (idx : List Nat)
    (h : ∀ i ∈ idx, i + 1 < data.length) (hb : ∀ b ∈ data, b < 256) :
    emgLoop data idx =
      some (idx.map (fun i => 256 * data.getD i 0 + data.getD (i + 1) 0)) := by
  induction idx with
  | nil => rfl
  | cons i rest ih =>
    have hi1 : i + 1 < data.length := h i (List.mem_cons_self i rest)
    have hi0 : i < data.length := by omega
    have hlo : data.getD (i + 1) 0 < 256 := hb _ (getD_mem data (i + 1) hi1)
    rw [emgLoop, get?_eq_some_getD data i hi0, get?_eq_some_getD data (i + 1) hi1,
        ih (fun j hj => h j (List.mem_cons_of_mem i hj))]
    simp only [Option.map_some, Option.map_some', List.map_cons]
    rw [be16_or _ _ hlo]

theorem process_heartbeat_packet_effects (data : List Nat) (s s' : SessionState)
    (h : process_heartbeat_packet data s = some s') :
    s'.HEARTBEAT_EVENT = true ∧ s'.STOP_EVENT = s.STOP_EVENT ∧
    s'.HEARTBEAT_ID = s.HEARTBEAT_ID ∧
    s'.LAST_HEARTBEAT_SENT_TIME = s.LAST_HEARTBEAT_SENT_TIME ∧
    s'.RECORDING_EVENT = s.RECORDING_EVENT ∧ s'.RECORDING_START = s.RECORDING_START ∧
    s'.emgRows = s.emgRows := by
  unfold process_heartbeat_packet at h
  split at h
  · exact absurd h (by simp)
  · dsimp only at h
    split at h <;> (injection h with h2; subst h2; exact ⟨rfl, rfl, rfl, rfl, rfl, rfl, rfl⟩)

theorem parse_received_data_preserves (now : Int) (data : List Nat) (s s' : SessionState)
    (h : parse_received_data now data s = some s') :
    s'.STOP_EVENT = s.STOP_EVENT ∧ s'.HEARTBEAT_ID = s.HEARTBEAT_ID ∧
    s'.LAST_HEARTBEAT_SENT_TIME = s.LAST_HEARTBEAT_SENT_TIME := by
  unfold parse_received_data at h
  split at h
  · exact absurd h (by simp)
  · split at h
    · have e := process_heartbeat_packet_effects data s s' h
      exact ⟨e.2.1, e.2.2.1, e.2.2.2.1⟩
    · split at h
      · split at h
        · exact absurd h (by simp)
        · dsimp only at h
          split at h
          · injection h with h2; subst h2; exact ⟨rfl, rfl, rfl⟩
          · injection h with h2; subst h2; exact ⟨rfl, rfl, rfl⟩
      · injection h with h2; subst h2; exact ⟨rfl, rfl, rfl⟩

/-- Claim C2: the dispatcher does NOT tolerate every inbound byte sequence.
This theorem evaluates the code at the failing inputs: the empty frame, the
one-byte 0x01 frame, and 0x04 frames of 1 and 14 bytes all make
parse_received_data raise IndexError (modelled as none), while a nonempty
frame with an unknown first byte is indeed ignored with no state change. -/
theorem C2_dispatcher_crash_on_short_frames (now : Int) (s : SessionState) :
    parse_received_data now [] s = none ∧
    parse_received_data now [0x01] s = none ∧
    parse_received_data now [0x04] s = none ∧
    parse_received_data now (0x04 :: List.replicate 13 0) s = none ∧
    parse_received_data now [0x02] s = some s :=
  ⟨rfl, rfl, rfl, rfl, rfl⟩

/-- Claim C3: for every id in 0..255, encode_heartbeat produces the 6-byte
frame 0x01, id, 0xFF, 0xFF, 0xFF, 0x0A, and decoding that frame yields a
Heartbeat packet carrying the same id. -/
theorem C3_heartbeat_round_trip (id : Nat) (_h : id < 256) :
    construct_heartbeat_packet id = [0x01, id, 0xFF, 0xFF, 0xFF, 0x0A] ∧
    decode (construct_heartbeat_packet id) = some (Packet.heartbeat id) :=
  ⟨rfl, rfl⟩

/-- Witness for C3 at id = 7. -/
theorem C3_heartbeat_round_trip_witness :
    7 < 256 ∧
    (construct_heartbeat_packet 7 = [0x01, 7, 0xFF, 0xFF, 0xFF, 0x0A] ∧
     decode (construct_heartbeat_packet 7) = some (Packet.heartbeat 7)) :=
  ⟨by decide, C3_heartbeat_round_trip 7 (by decide)⟩

/-- Claim C6 counterexample: a frame that really is 15 bytes long with tag
0x04 does not decode to eight channel values; process_emg_signal raises
IndexError (the loop reads indices up to 16), modelled as none. -/
theorem C6_counterexample :
    ([0x04, 0x00, 0x01, 0x00, 0x02, 0x00, 0x03, 0x00,
      0x04, 0x00, 0x05, 0x00, 0x06, 0x00, 0x07] : List Nat).length = 15 ∧
    process_emg_signal
      [0x04, 0x00, 0x01, 0x00, 0x02, 0x00, 0x03, 0x00,
       0x04, 0x00, 0x05, 0x00, 0x06, 0x00, 0x07] = none := by
  decide

/-- Claim C6 as amended: the concrete frame of the claim is 17 bytes (tag plus
16 payload bytes) and decodes to channels 1..8; in general, every frame with
tag 0x04, length at least 17, and byte-valued entries is decoded by reading
indices 1..16 as eight big-endian unsigned 16-bit channel values. -/
theorem C6_sample_decode :
    (sampleFrame.length = 17 ∧ process_emg_signal sampleFrame = some [1, 2, 3, 4, 5, 6, 7, 8]) ∧
    (∀ data : List Nat, 17 ≤ data.length → (∀ b ∈ data, b < 256) →
      process_emg_signal data =
        some ((List.range 8).map
          (fun k => 256 * data.getD (2 * k + 1) 0 + data.getD (2 * k + 2) 0))) := by
  refine ⟨by decide, fun data hlen hb => ?_⟩
  unfold process_emg_signal
  rw [emgLoop_eq_of_lt data _ (by intro i hi; fin_cases hi <;> omega) hb]
  congr 1

/-- Witness for the amended C6 at the claim's own frame. -/
theorem C6_sample_decode_witness :
    (17 ≤ sampleFrame.length ∧ (∀ b ∈ sampleFrame, b < 256)) ∧
    process_emg_signal sampleFrame =
      some ((List.range 8).map
        (fun k => 256 * sampleFrame.getD (2 * k + 1) 0 + sampleFrame.getD (2 * k + 2) 0)) :=
  ⟨⟨by decide, by decide⟩, C6_sample_decode.2 sampleFrame (by decide) (by decide)⟩

/-- Claim C7: arming the recording window does not set RECORDING_START; the
first sample after arming anchors it.  Delivering the sample frame at times 5
and 8 to a freshly armed session yields log rows with elapsed values 0 and 3,
with RECORDING_START anchored at 5 by the first sample. -/
theorem C7_lazy_recording_anchor :
    (∀ s : SessionState, (arm_recording s).RECORDING_START = s.RECORDING_START) ∧
    (parse_received_data 5 sampleFrame (arm_recording initState)).bind
        (parse_received_data 8 sampleFrame) =
      some { initState with
               RECORDING_EVENT := true
               RECORDING_START := some 5
               emgRows := [(0, [1, 2, 3, 4, 5, 6, 7, 8]), (3, [1, 2, 3, 4, 5, 6, 7, 8])] } :=
  ⟨fun _ => rfl, by decide⟩

/-- Claim C8: the recording window set up by main expires duration seconds
after arming with no dependence on sample arrival: with no inbound samples at
all, the phase ends at t0 + duration with STOP_EVENT set and the window
deactivated; and for any inbound traffic the dispatcher survives, the same
expiry state is reached at the same time. -/
theorem C8_window_expiry :
    (∀ (t0 d : Int) (s : SessionState),
      ∃ s', main_record_phase t0 d [] s = some (t0 + d, s') ∧
        s'.STOP_EVENT = true ∧ s'.RECORDING_EVENT = false) ∧
    (∀ (t0 d : Int) (s s1 : SessionState) (inbound : List (Int × List Nat)),
      processInbound inbound (arm_recording s) = some s1 →
      main_record_phase t0 d inbound s = some (t0 + d, expire_recording s1) ∧
      (expire_recording s1).STOP_EVENT = true ∧
      (expire_recording s1).RECORDING_EVENT = false) := by
  constructor
  · intro t0 d s
    exact ⟨expire_recording (arm_recording s), rfl, rfl, rfl⟩
  · intro t0 d s s1 inbound h
    refine ⟨?_, rfl, rfl⟩
    unfold main_record_phase
    rw [h]
    rfl

/-- Witness for C8 with duration 10 from the initial state and no samples. -/
theorem C8_window_expiry_witness :
    processInbound [] (arm_recording initState) = some (arm_recording initState) ∧
    (main_record_phase 0 10 [] initState =
        some (0 + 10, expire_recording (arm_recording initState)) ∧
      (expire_recording (arm_recording initState)).STOP_EVENT = true ∧
      (expire_recording (arm_recording initState)).RECORDING_EVENT = false) :=
  ⟨rfl, C8_window_expiry.2 0 10 initState (arm_recording initState) [] rfl⟩

theorem C4_lenient_response_matching (k : Nat) (s : SessionState) (data : List Nat)
    (r : Nat) (hk : k < 256) (hs : s.HEARTBEAT_ID = (k + 1) % 256)
    (hr : data.get? 1 = some r) :
    ∃ s', process_heartbeat_packet data s = some s' ∧
      s'.HEARTBEAT_EVENT = true ∧
      s'.STOP_EVENT = s.STOP_EVENT ∧
      s'.HEARTBEAT_ID = s.HEARTBEAT_ID ∧
      (r = k → s'.idMismatchCount = s.idMismatchCount) ∧
      (r ≠ k → s'.idMismatchCount = s.idMismatchCount + 1) := by
  have hexp : (s.HEARTBEAT_ID + 255) % 256 = k := by rw [hs]; omega
  unfold process_heartbeat_packet
  rw [hr]
  dsimp only
  rw [hexp]
  by_cases hrk : r = k
  · rw [if_pos hrk]
    exact ⟨_, rfl, rfl, rfl, rfl, fun _ => rfl, fun hne => absurd hrk hne⟩
  · rw [if_neg hrk]
    exact ⟨_, rfl, rfl, rfl, rfl, fun he => absurd he hrk, fun _ => rfl⟩

/-- Witness for C4: the supervisor just sent id 5 (next id 6); the matching
response with id 5 releases the wait with no mismatch logged. -/
theorem C4_lenient_response_matching_witness :
    (5 < 256 ∧
      ({ initState with HEARTBEAT_ID := 6 } : SessionState).HEARTBEAT_ID = (5 + 1) % 256 ∧
      ([0x01, 5, 0xFF, 0xFF, 0xFF, 0x0A] : List Nat).get? 1 = some 5) ∧
    (∃ s', process_heartbeat_packet [0x01, 5, 0xFF, 0xFF, 0xFF, 0x0A]
            { initState with HEARTBEAT_ID := 6 } = some s' ∧
      s'.HEARTBEAT_EVENT = true ∧
      s'.STOP_EVENT = ({ initState with HEARTBEAT_ID := 6 } : SessionState).STOP_EVENT ∧
      s'.HEARTBEAT_ID = ({ initState with HEARTBEAT_ID := 6 } : SessionState).HEARTBEAT_ID ∧
      (5 = 5 →
        s'.idMismatchCount =
          ({ initState with HEARTBEAT_ID := 6 } : SessionState).idMismatchCount) ∧
      (5 ≠ 5 →
        s'.idMismatchCount =
          ({ initState with HEARTBEAT_ID := 6 } : SessionState).idMismatchCount + 1)) :=
  ⟨⟨by decide, by decide, by decide⟩,
   C4_lenient_response_matching 5 { initState with HEARTBEAT_ID := 6 }
     [0x01, 5, 0xFF, 0xFF, 0xFF, 0x0A] 5 (by decide) (by decide) (by decide)⟩

theorem send_step_success (t : Int) (s : SessionState) (resp : Option Int)
    (hstop : s.STOP_EVENT = false) :
    ((send_heartbeat_step true resp t s).2).STOP_EVENT = false ∧
    ((send_heartbeat_step true resp t s).2).HEARTBEAT_ID = (s.HEARTBEAT_ID + 1) % 256 := by
  have hc : ¬ (HARD_TIMEOUT ≤ HEARTBEAT_TIMEOUT) := by decide
  cases resp with
  | some d => simp [send_heartbeat_step, hstop]
  | none => simp [send_heartbeat_step, hstop, hc]

theorem successRun_invariant (resp : Nat → Option Int) (n : Nat) :
    ((successRun resp n).2).STOP_EVENT = false ∧
    ((successRun resp n).2).HEARTBEAT_ID = n % 256 := by
  induction n with
  | zero => exact ⟨rfl, rfl⟩
  | succ k ih =>
    have hstep := send_step_success (successRun resp k).1 (successRun resp k).2 (resp k) ih.1
    refine ⟨?_, ?_⟩
    · rw [successRun]
      exact hstep.1
    · rw [successRun]
      have h2 := hstep.2
      rw [ih.2] at h2
      exact h2.trans (by omega)

theorem noResponseRun_closed (n : Nat) :
    noResponseRun (n + 1) =
      (2 * ((n : Int) + 1),
       { initState with
           HEARTBEAT_ID := (n + 1) % 256
           LAST_HEARTBEAT_SENT_TIME := 2 * (n : Int) }) := by
  induction n with
  | zero => decide
  | succ k ih =>
    rw [noResponseRun]
    dsimp only
    rw [ih]
    have hc : ¬ (HARD_TIMEOUT ≤ HEARTBEAT_TIMEOUT) := by decide
    simp only [send_heartbeat_step, hc]
    norm_num [initState, HEARTBEAT_TIMEOUT, HARD_TIMEOUT, Prod.mk.injEq]
    ring

/-- Claim C1 counterexample: run the heartbeat loop from the start of the
session with every write succeeding and no response ever arriving.  After four
iterations the clock reads 8, which is beyond one hard-timeout window of the
first send even allowing one extra interval (5 + 2 = 7), yet STOP_EVENT is
still unset — the claimed deadline is violated at this concrete point. -/
theorem C1_counterexample :
    (noResponseRun 4).1 = 8 ∧
    HARD_TIMEOUT + HEARTBEAT_INTERVAL < 8 ∧
    ((noResponseRun 4).2).STOP_EVENT = false := by
  decide

/-- Claim C1 as amended: with every transport write succeeding and no response
ever arriving, the supervisor NEVER sets the Stop Signal: each successful send
resets LAST_HEARTBEAT_SENT_TIME, so at every soft-timeout check the elapsed
time since the last send equals HEARTBEAT_TIMEOUT = 2 < HARD_TIMEOUT = 5.
After n iterations the loop is at time 2n, still running, having sent n beats
(ids 0..n-1, next id n mod 256), retrying each soft timeout immediately. -/
theorem C1_no_hard_timeout_when_writes_succeed (n : Nat) :
    ((noResponseRun n).2).STOP_EVENT = false ∧
    (noResponseRun n).1 = 2 * (n : Int) ∧
    ((noResponseRun n).2).HEARTBEAT_ID = n % 256 := by
  cases n with
  | zero => exact ⟨rfl, by decide, rfl⟩
  | succ k =>
    rw [noResponseRun_closed k]
    refine ⟨rfl, ?_, rfl⟩
    push_cast
    ring

/-- Claim C5: HEARTBEAT_ID starts at 0 and equals N mod 256 after N successful
sends, for every pattern of response arrivals; a successful send increments it
by exactly 1 mod 256, and nothing else changes it — not a failed send, not
inbound dispatch, not arming or expiring the recording window. -/
theorem C5_heartbeat_id_monotonic :
    (∀ (resp : Nat → Option Int) (N : Nat),
      ((successRun resp N).2).HEARTBEAT_ID = N % 256) ∧
    (∀ (t : Int) (s : SessionState) (resp : Option Int), s.STOP_EVENT = false →
      ((send_heartbeat_step true resp t s).2).HEARTBEAT_ID = (s.HEARTBEAT_ID + 1) % 256) ∧
    (∀ (t : Int) (s : SessionState) (resp : Option Int),
      ((send_heartbeat_step false resp t s).2).HEARTBEAT_ID = s.HEARTBEAT_ID) ∧
    (∀ (now : Int) (data : List Nat) (s s' : SessionState),
      parse_received_data now data s = some s' → s'.HEARTBEAT_ID = s.HEARTBEAT_ID) ∧
    (∀ s : SessionState, (arm_recording s).HEARTBEAT_ID = s.HEARTBEAT_ID ∧
      (expire_recording s).HEARTBEAT_ID = s.HEARTBEAT_ID) := by
  refine ⟨fun resp N => (successRun_invariant resp N).2,
          fun t s resp hstop => (send_step_success t s resp hstop).2,
          fun t s resp => ?_,
          fun now data s s' h => (parse_received_data_preserves now data s s' h).2.1,
          fun s => ⟨rfl, rfl⟩⟩
  unfold send_heartbeat_step
  by_cases hstop : s.STOP_EVENT = true
  · simp [hstop]
  · simp only [Bool.not_eq_true] at hstop
    cases resp with
    | some d => simp [hstop]
    | none =>
      by_cases hc : HARD_TIMEOUT ≤ (t + HEARTBEAT_TIMEOUT) - s.LAST_HEARTBEAT_SENT_TIME
      · simp [hstop, hc]
      · simp [hstop, hc]

/-- Witness for C5: the run part at N = 3 with no responses, the increment
part at the initial state, and the inbound-dispatch frame part at an ignored
unknown frame. -/
theorem C5_heartbeat_id_monotonic_witness :
    ((successRun (fun _ => none) 3).2).HEARTBEAT_ID = 3 % 256 ∧
    (initState.STOP_EVENT = false ∧
      ((send_heartbeat_step true none 0 initState).2).HEARTBEAT_ID =
        (initState.HEARTBEAT_ID + 1) % 256) ∧
    (parse_received_data 0 [0x02] initState = some initState ∧
      initState.HEARTBEAT_ID = initState.HEARTBEAT_ID) :=
  ⟨C5_heartbeat_id_monotonic.1 (fun _ => none) 3,
   ⟨rfl, C5_heartbeat_id_monotonic.2.1 0 initState none rfl⟩,
   ⟨rfl, C5_heartbeat_id_monotonic.2.2.2.1 0 [0x02] initState initState rfl⟩⟩

/-- Claim C9: once STOP_EVENT is set, every operation of every component —
inbound dispatch, a heartbeat loop iteration, arming the recording window,
window expiry — leaves it set; no operation ever clears it. -/
theorem C9_stop_signal_monotone (op : SessionOp) (s s' : SessionState)
    (h : session_step op s = some s') (hstop : s.STOP_EVENT = true) :
    s'.STOP_EVENT = true := by
  cases op with
  | inbound now data =>
    rw [(parse_received_data_preserves now data s s' h).1, hstop]
  | beat ok d t =>
    injection h with h2
    subst h2
    simp [send_heartbeat_step, hstop]
  | armRecord =>
    injection h with h2
    subst h2
    exact hstop
  | expireRecord =>
    injection h with h2
    subst h2
    rfl

/-- Witness for C9: arming the recording window on a stopped session leaves
the Stop Signal set. -/
theorem C9_stop_signal_monotone_witness :
    session_step SessionOp.armRecord { initState with STOP_EVENT := true } =
        some (arm_recording { initState with STOP_EVENT := true }) ∧
    ({ initState with STOP_EVENT := true } : SessionState).STOP_EVENT = true ∧
    (arm_recording { initState with STOP_EVENT := true }).STOP_EVENT = true :=
  ⟨rfl, rfl, C9_stop_signal_monotone SessionOp.armRecord _ _ rfl rfl⟩

/-- Claim C10: an iteration whose transport write fails leaves HEARTBEAT_ID
and LAST_HEARTBEAT_SENT_TIME unchanged, still runs the wait step — on a soft
timeout its stop decision is exactly the hard-timeout comparison against the
old LAST_HEARTBEAT_SENT_TIME — while an iteration whose write succeeds can
never set the Stop Signal, so only repeated write failures let the
elapsed-since-last-send clock reach the hard timeout. -/
theorem C10_failed_send_frame (t : Int) (s : SessionState) (resp : Option Int)
    (hstop : s.STOP_EVENT = false) :
    (((send_heartbeat_step false resp t s).2).HEARTBEAT_ID = s.HEARTBEAT_ID ∧
     ((send_heartbeat_step false resp t s).2).LAST_HEARTBEAT_SENT_TIME =
       s.LAST_HEARTBEAT_SENT_TIME) ∧
    ((send_heartbeat_step false none t s).2).STOP_EVENT =
      decide (HARD_TIMEOUT ≤ (t + HEARTBEAT_TIMEOUT) - s.LAST_HEARTBEAT_SENT_TIME) ∧
    ((send_heartbeat_step true resp t s).2).STOP_EVENT = false := by
  refine ⟨?_, ?_, (send_step_success t s resp hstop).1⟩
  · unfold send_heartbeat_step
    cases resp with
    | some d => simp [hstop]
    | none =>
      by_cases hc : HARD_TIMEOUT ≤ (t + HEARTBEAT_TIMEOUT) - s.LAST_HEARTBEAT_SENT_TIME
      · simp [hstop, hc]
      · simp [hstop, hc]
  · unfold send_heartbeat_step
    by_cases hc : HARD_TIMEOUT ≤ (t + HEARTBEAT_TIMEOUT) - s.LAST_HEARTBEAT_SENT_TIME
    · simp [hstop, hc]
    · simp [hstop, hc]

/-- Witness for C10 at the initial state, time 0: a failed first write changes
nothing, and the soft-timeout check at time 2 compares 2 against the hard
timeout 5, so no stop. -/
theorem C10_failed_send_frame_witness :
    initState.STOP_EVENT = false ∧
    ((((send_heartbeat_step false none 0 initState).2).HEARTBEAT_ID = initState.HEARTBEAT_ID ∧
      ((send_heartbeat_step false none 0 initState).2).LAST_HEARTBEAT_SENT_TIME =
        initState.LAST_HEARTBEAT_SENT_TIME) ∧
     ((send_heartbeat_step false none 0 initState).2).STOP_EVENT =
       decide (HARD_TIMEOUT ≤ (0 + HEARTBEAT_TIMEOUT) - initState.LAST_HEARTBEAT_SENT_TIME) ∧
     ((send_heartbeat_step true none 0 initState).2).STOP_EVENT = false) :=
  ⟨rfl, C10_failed_send_frame 0 initState none rfl⟩

end BleCommunication
